import Mathlib

/-!
Verification development for the `smart-precommit-setup.js` technology-stack
detector and pre-commit configuration generator.

The definitions below are a shallow embedding of the script
`src/smart-precommit-setup.js`: pure data (hook records, repositories, the
fixed detection rule table, the command-string generators) is transcribed
directly, the file-system surface is modelled by a record of predicates, and
the two output files are modelled as an explicit list of (path, content)
pairs produced by the run entry point.
-/

/-- One hook entry of a pre-commit repository record, with exactly the
optional fields that `generateConfiguration` ever sets.  Absent JS object
fields are `none`. -/
structure Hook where
  id : String
  name : Option String := none
  entry : Option String := none
  language : Option String := none
  files : Option String := none
  exclude : Option String := none
  args : Option (List String) := none
  language_version : Option String := none
  pass_filenames : Option Bool := none
deriving DecidableEq

/-- One `repos:` entry of the rendered configuration: a repo reference, an
optional version pin and its hooks, as assembled by `generateConfiguration`. -/
structure Repo where
  repo : String
  rev : Option String := none
  hooks : List Hook
deriving DecidableEq

/-- Transcription of `generateWindowsCommand` (src/smart-precommit-setup.js
lines 928-949): the PowerShell command dialect, one case per command type,
default case echoing the success message. -/
def generateWindowsCommand (commandType pattern successMsg failMsg : String) : String :=
  match commandType with
  | "grep" =>
      "powershell -Command \"if (Select-String -Path (Get-ChildItem -Recurse -Exclude node_modules,.git | Where-Object \x7b!$_.PSIsContainer\x7d) -Pattern \x27" ++ pattern ++ "\x27 -Quiet) \x7b Write-Host \x27" ++ failMsg ++ "\x27; exit 1 \x7d else \x7b Write-Host \x27" ++ successMsg ++ "\x27 \x7d\""
  | "js-files" =>
      "powershell -Command \"$files = Get-ChildItem -Recurse -Include \x27*.js\x27,\x27*.jsx\x27,\x27*.ts\x27,\x27*.tsx\x27 | Where-Object \x7b$_.FullName -notlike \x27*node_modules*\x27\x7d; if (Select-String -Path $files -Pattern \x27" ++ pattern ++ "\x27 -Quiet) \x7b Write-Host \x27" ++ failMsg ++ "\x27; exit 1 \x7d else \x7b Write-Host \x27" ++ successMsg ++ "\x27 \x7d\""
  | "package-scan" =>
      "powershell -Command \"if (Test-Path \x27package.json\x27) \x7b npm audit --audit-level moderate \x7d; if (Test-Path \x27requirements.txt\x27) \x7b pip-audit --desc \x7d; Write-Host \x27" ++ successMsg ++ "\x27\""
  | "enterprise-patterns" =>
      "powershell -Command \"$files = Get-ChildItem -Recurse | Where-Object \x7b!$_.PSIsContainer -and $_.FullName -notlike \x27*node_modules*\x27 -and $_.FullName -notlike \x27*.git*\x27 -and $_.Name -notlike \x27README*\x27 -and $_.Name -notlike \x27*.test.*\x27\x7d; $matches = Select-String -Path $files -Pattern \x27@shell\\.com|@sede\\.com|password\\s*=|api[_-]?key\\s*[=:]\x27; if ($matches) \x7b Write-Host \x27=== ENTERPRISE SECURITY PATTERNS DETECTED ===\x27; $matches | ForEach-Object \x7b Write-Host \"File: $($_.Filename) | Line $($_.LineNumber): $($_.Line.Trim())\" \x7d; Write-Host \x27=== END PATTERNS ===\x27; exit 1 \x7d else \x7b Write-Host \x27Enterprise patterns check passed - no sensitive patterns found\x27 \x7d\""
  | "emoji-detector" =>
      "powershell -Command \"$matches = Select-String -Path (Get-ChildItem -Recurse -Exclude node_modules,.git | Where-Object \x7b!$_.PSIsContainer\x7d) -Pattern \x27[\\u\x7b1F600\x7d-\\u\x7b1F64F\x7d]|[\\u\x7b1F300\x7d-\\u\x7b1F5FF\x7d]|[\\u\x7b1F680\x7d-\\u\x7b1F6FF\x7d]\x27; if ($matches) \x7b Write-Host \x27=== EMOJI/AI CONTENT DETECTED ===\x27; $matches | ForEach-Object \x7b Write-Host \"File: $($_.Filename) | Line $($_.LineNumber): $($_.Line.Trim())\" \x7d; Write-Host \x27=== END EMOJIS ===\x27; exit 1 \x7d else \x7b Write-Host \x27No emojis found - content appears human-generated\x27 \x7d\""
  | "encoding-cipher" =>
      "powershell -Command \"$matches = Select-String -Path (Get-ChildItem -Recurse -Exclude node_modules,.git | Where-Object \x7b!$_.PSIsContainer\x7d) -Pattern \x27base64|btoa|atob|-----BEGIN|-----END|[A-Za-z0-9+/]\x7b40,\x7d=\x27; if ($matches) \x7b Write-Host \x27=== ENCODED/CIPHER CONTENT DETECTED ===\x27; $matches | ForEach-Object \x7b Write-Host \"File: $($_.Filename) | Line $($_.LineNumber): $($_.Line.Trim())\" \x7d; Write-Host \x27=== END ENCODED CONTENT ===\x27; exit 1 \x7d else \x7b Write-Host \x27No suspicious encoded content found\x27 \x7d\""
  | "digital-signatures" =>
      "powershell -Command \"$files = Get-ChildItem -Recurse -Include \x27*.p12\x27,\x27*.pfx\x27,\x27*.pem\x27,\x27*.crt\x27,\x27*.cer\x27,\x27*.key\x27,\x27*.jks\x27,\x27*.keystore\x27 | Where-Object \x7b$_.FullName -notlike \x27*node_modules*\x27\x7d; if ($files.Count -gt 0) \x7b Write-Host \x27=== DIGITAL CERTIFICATES/SIGNATURES DETECTED ===\x27; $files | ForEach-Object \x7b Write-Host \"Certificate file: $($_.FullName)\" \x7d; Write-Host \x27=== END CERTIFICATES ===\x27; exit 1 \x7d else \x7b Write-Host \x27No digital signatures found\x27 \x7d\""
  | "suspicious-patterns" =>
      "powershell -Command \"$matches = Select-String -Path (Get-ChildItem -Recurse -Exclude node_modules,.git | Where-Object \x7b!$_.PSIsContainer\x7d) -Pattern \x27eval\\(|exec\\(|system\\(|shell_exec|passthru|popen|proc_open|file_get_contents.*http|curl_exec|wget|powershell|cmd\\.exe\x27; if ($matches) \x7b Write-Host \x27=== SUSPICIOUS EXECUTION PATTERNS DETECTED ===\x27; $matches | ForEach-Object \x7b Write-Host \"File: $($_.Filename) | Line $($_.LineNumber): $($_.Line.Trim())\" \x7d; Write-Host \x27=== END SUSPICIOUS PATTERNS ===\x27; exit 1 \x7d else \x7b Write-Host \x27No suspicious execution patterns found\x27 \x7d\""
  | _ =>
      "powershell -Command \"Write-Host \x27" ++ successMsg ++ "\x27\""

/-- Transcription of `generateUnixCommand` (src/smart-precommit-setup.js
lines 951-972): the bash command dialect, one case per command type. -/
def generateUnixCommand (commandType pattern successMsg failMsg : String) : String :=
  match commandType with
  | "grep" =>
      "bash -c \"grep -r --exclude-dir=node_modules --exclude-dir=.git -E \x27" ++ pattern ++ "\x27 . && echo \x27" ++ failMsg ++ "\x27 && exit 1 || echo \x27" ++ successMsg ++ "\x27\""
  | "js-files" =>
      "bash -c \"find . -name \x27*.js\x27 -o -name \x27*.jsx\x27 -o -name \x27*.ts\x27 -o -name \x27*.tsx\x27 | grep -v node_modules | xargs grep -l \x27" ++ pattern ++ "\x27 && echo \x27" ++ failMsg ++ "\x27 && exit 1 || echo \x27" ++ successMsg ++ "\x27\""
  | "package-scan" =>
      "bash -c \"if [ -f package.json ]; then npm audit --audit-level moderate; fi && if [ -f requirements.txt ]; then pip-audit --desc; fi && echo \x27" ++ successMsg ++ "\x27\""
  | "enterprise-patterns" =>
      "bash -c \"echo \x27=== SCANNING FOR ENTERPRISE SECURITY PATTERNS ===\x27 && grep -r --exclude-dir=node_modules --exclude-dir=.git --exclude=\x27README*\x27 --exclude=\x27*.test.*\x27 -E \x27(@shell\\.com|@sede\\.com|password\\s*=|api[_-]?key\\s*[=:])\x27 . && echo \x27=== END ENTERPRISE PATTERNS ===\x27 && exit 1 || echo \x27Enterprise patterns check passed - no sensitive patterns found\x27\""
  | "emoji-detector" =>
      "bash -c \"echo \x27=== SCANNING FOR EMOJI/AI CONTENT ===\x27 && grep -r --exclude-dir=node_modules --exclude-dir=.git -P \x27[\\x\x7b1F600\x7d-\\x\x7b1F64F\x7d]|[\\x\x7b1F300\x7d-\\x\x7b1F5FF\x7d]|[\\x\x7b1F680\x7d-\\x\x7b1F6FF\x7d]\x27 . && echo \x27=== END EMOJI DETECTION ===\x27 && exit 1 || echo \x27No emojis found - content appears human-generated\x27\""
  | "encoding-cipher" =>
      "bash -c \"echo \x27=== SCANNING FOR ENCODED/CIPHER CONTENT ===\x27 && grep -r --exclude-dir=node_modules --exclude-dir=.git -E \x27(base64|btoa|atob|-----BEGIN|-----END|[A-Za-z0-9+/]\x7b40,\x7d=)\x27 . && echo \x27=== END ENCODED CONTENT ===\x27 && exit 1 || echo \x27No suspicious encoded content found\x27\""
  | "digital-signatures" =>
      "bash -c \"echo \x27=== SCANNING FOR DIGITAL CERTIFICATES ===\x27 && find . -type f \\( -name \x27*.p12\x27 -o -name \x27*.pfx\x27 -o -name \x27*.pem\x27 -o -name \x27*.crt\x27 -o -name \x27*.cer\x27 -o -name \x27*.key\x27 -o -name \x27*.jks\x27 -o -name \x27*.keystore\x27 \\) | grep -v node_modules && echo \x27=== END CERTIFICATE SCAN ===\x27 && exit 1 || echo \x27No digital signatures found\x27\""
  | "suspicious-patterns" =>
      "bash -c \"echo \x27=== SCANNING FOR SUSPICIOUS EXECUTION PATTERNS ===\x27 && grep -r --exclude-dir=node_modules --exclude-dir=.git -iE \x27(eval\\(|exec\\(|system\\(|shell_exec|passthru|popen|proc_open|file_get_contents\\(.*http|curl_exec|wget|powershell|cmd\\.exe)\x27 . && echo \x27=== END SUSPICIOUS PATTERNS ===\x27 && exit 1 || echo \x27No suspicious execution patterns found\x27\""
  | _ =>
      "bash -c \"echo \x27" ++ successMsg ++ "\x27\""

/-- Transcription of `generateOSSpecificCommand` (lines 910-926): selects the
platform dialect from the `isWindows` flag (`process.platform === "win32"`). -/
def generateOSSpecificCommand (isWindows : Bool) (commandType pattern successMsg failMsg : String) : String :=
  if isWindows then generateWindowsCommand commandType pattern successMsg failMsg
  else generateUnixCommand commandType pattern successMsg failMsg

/-- Base security tools, always included (lines 599-624 `baseSecurity`). -/
def baseSecurity : List Repo :=
  [ { repo := "https://github.com/gitleaks/gitleaks", rev := some "v8.18.0",
      hooks := [ { id := "gitleaks", name := some "Gitleaks - Detect Secrets",
                   entry := some "gitleaks detect --verbose --redact --no-git",
                   language := some "system" } ] },
    { repo := "https://github.com/trufflesecurity/trufflehog", rev := some "v3.63.2-rc0",
      hooks := [ { id := "trufflehog", name := some "TruffleHog - Advanced Secret Detection",
                   entry := some "trufflehog git file://./ --only-verified --fail",
                   language := some "system" } ] } ]

/-- Enhanced security tools, level 2 and above (lines 627-672
`enhancedSecurity`); the package-vulnerability hook entry depends on the
platform flag through `generateOSSpecificCommand`. -/
def enhancedSecurity (isWindows : Bool) : List Repo :=
  [ { repo := "https://github.com/pre-commit/pre-commit-hooks", rev := some "v4.4.0",
      hooks := [ { id := "detect-private-key", name := some "Detect Private Keys" },
                 { id := "check-merge-conflict", name := some "Check Merge Conflicts" },
                 { id := "check-added-large-files", name := some "Check Large Files",
                   args := some ["--maxkb=1000"] },
                 { id := "end-of-file-fixer", name := some "Fix End of Files" },
                 { id := "trailing-whitespace", name := some "Trim Trailing Whitespace" } ] },
    { repo := "https://github.com/Yelp/detect-secrets", rev := some "v1.4.0",
      hooks := [ { id := "detect-secrets",
                   name := some "Detect Secrets - Advanced Pattern Detection",
                   args := some ["--baseline", ".secrets.baseline"],
                   exclude := some "package-lock.json|yarn.lock|poetry.lock" } ] },
    { repo := "local",
      hooks := [ { id := "package-vulnerability-scan",
                   name := some "Package Vulnerability Scanning",
                   entry := some (generateOSSpecificCommand isWindows "package-scan" ""
                     "Package scan completed" "Vulnerabilities found"),
                   language := some "system",
                   pass_filenames := some false } ] } ]

/-- Maximum security tools, level 3 (lines 675-747 `maximumSecurity`). -/
def maximumSecurity (isWindows : Bool) : List Repo :=
  [ { repo := "local",
      hooks :=
        [ { id := "enterprise-patterns", name := some "Enterprise Security Pattern Detection",
            entry := some (generateOSSpecificCommand isWindows "enterprise-patterns" ""
              "Enterprise patterns check passed" "Enterprise security patterns found"),
            language := some "system" },
          { id := "console-log-detector", name := some "Console.log Detection (Production)",
            entry := some (generateOSSpecificCommand isWindows "js-files" "console.log"
              "No console.log found" "console.log found - remove before commit"),
            language := some "system" },
          { id := "emoji-ai-detector", name := some "Emoji/AI Content Detection",
            entry := some (generateOSSpecificCommand isWindows "emoji-detector" ""
              "No emojis found" "Emoji detected - potential AI content"),
            language := some "system" },
          { id := "encoding-cipher-detector", name := some "Encoded/Cipher Content Detection",
            entry := some (generateOSSpecificCommand isWindows "encoding-cipher" ""
              "No encoded content found" "Encoded content detected"),
            language := some "system" },
          { id := "digital-signature-detector", name := some "Digital Signature Detection",
            entry := some (generateOSSpecificCommand isWindows "digital-signatures" ""
              "No digital signatures found" "Digital certificates/signatures found"),
            language := some "system" },
          { id := "suspicious-strings-detector", name := some "Suspicious String Patterns Detection",
            entry := some (generateOSSpecificCommand isWindows "suspicious-patterns" ""
              "No suspicious patterns found" "Suspicious execution patterns found"),
            language := some "system" } ] } ]

/-- Predicate `hasAnyTech` (lines 905-907): does the detected tag set contain
any tag of the given list. -/
def hasAnyTech (techList : List String) (detectedTech : List String) : Bool :=
  techList.any (fun tech => detectedTech.contains tech)

/-- ESLint repository record (lines 763-774). -/
def eslintRepo : Repo :=
  { repo := "https://github.com/pre-commit/mirrors-eslint", rev := some "v8.50.0",
    hooks := [ { id := "eslint", name := some "ESLint - JavaScript/TypeScript Linting",
                 files := some "\\.(js|jsx|ts|tsx)$",
                 args := some ["--fix", "--max-warnings=0"] } ] }

/-- Prettier repository record, gated on security level 2 and above
(lines 776-789). -/
def prettierRepo : Repo :=
  { repo := "https://github.com/pre-commit/mirrors-prettier", rev := some "v3.0.3",
    hooks := [ { id := "prettier", name := some "Prettier - Code Formatting",
                 files := some "\\.(js|jsx|ts|tsx|json|css|scss|md)$",
                 args := some ["--write"] } ] }

/-- Black repository record (lines 794-804). -/
def blackRepo : Repo :=
  { repo := "https://github.com/psf/black", rev := some "23.9.1",
    hooks := [ { id := "black", name := some "Black - Python Code Formatting",
                 language_version := some "python3" } ] }

/-- Flake8 repository record, level 2 and above (lines 806-818). -/
def flake8Repo : Repo :=
  { repo := "https://github.com/pycqa/flake8", rev := some "6.1.0",
    hooks := [ { id := "flake8", name := some "Flake8 - Python Linting",
                 args := some ["--max-line-length=100", "--ignore=E203,W503"] } ] }

/-- Bandit repository record, level 2 and above (lines 819-830). -/
def banditRepo : Repo :=
  { repo := "https://github.com/pycqa/bandit", rev := some "1.7.5",
    hooks := [ { id := "bandit", name := some "Bandit - Python Security Analysis",
                 args := some ["-r", ".", "-f", "json", "-o", "bandit-report.json"] } ] }

/-- SQLFluff repository record (lines 835-848). -/
def sqlfluffRepo : Repo :=
  { repo := "https://github.com/sqlfluff/sqlfluff", rev := some "2.3.2",
    hooks := [ { id := "sqlfluff-lint", name := some "SQLFluff - SQL Linting",
                 files := some "\\.sql$",
                 args := some ["--dialect=tsql"] } ] }

/-- Local dotnet-format repository record (lines 851-864). -/
def dotnetRepo : Repo :=
  { repo := "local",
    hooks := [ { id := "dotnet-format", name := some "dotnet format - .NET Code Formatting",
                 entry := some "dotnet format --verify-no-changes",
                 language := some "system",
                 files := some "\\.(cs|vb)$" } ] }

/-- Hadolint repository record (lines 867-879). -/
def hadolintRepo : Repo :=
  { repo := "https://github.com/hadolint/hadolint", rev := some "v2.12.0",
    hooks := [ { id := "hadolint-docker", name := some "Hadolint - Dockerfile Linting",
                 files := some "Dockerfile.*" } ] }

/-- Technology-specific tool groups (lines 750-879 `techConfigs`): each
predicate over the detected tag set appends its group, with Prettier,
Flake8 and Bandit additionally gated on security level 2 and above. -/
def techConfigs (detectedTech : List String) (securityLevel : Nat) : List Repo :=
  (if hasAnyTech ["react-frontend", "nodejs", "typescript", "react", "vuejs", "angular"] detectedTech
   then [eslintRepo] ++ (if 2 ≤ securityLevel then [prettierRepo] else []) else [])
  ++ (if hasAnyTech ["python", "python-source", "python-modern"] detectedTech
      then [blackRepo] ++ (if 2 ≤ securityLevel then [flake8Repo, banditRepo] else []) else [])
  ++ (if hasAnyTech ["sql", "sql-enterprise"] detectedTech then [sqlfluffRepo] else [])
  ++ (if hasAnyTech ["dotnet", "aspnet"] detectedTech then [dotnetRepo] else [])
  ++ (if hasAnyTech ["docker"] detectedTech then [hadolintRepo] else [])

/-- The composed configuration (lines 881-892): base security always, the
enhanced block at level 2 and above, the maximum block at level 3 and above,
then the technology-specific groups, concatenated in that order. -/
def generateConfiguration (isWindows : Bool) (detectedTech : List String)
    (securityLevel : Nat) : List Repo :=
  baseSecurity
  ++ (if 2 ≤ securityLevel then enhancedSecurity isWindows else [])
  ++ (if 3 ≤ securityLevel then maximumSecurity isWindows else [])
  ++ techConfigs detectedTech securityLevel

/-- The flat list of hook identifiers of a configuration, in rendered order. -/
def hookIds (repos : List Repo) : List String :=
  (repos.map (fun r => r.hooks.map Hook.id)).flatten

/-- Base requirements (lines 1020-1025 `baseTools`). -/
def baseTools : List String :=
  ["pre-commit>=3.5.0", "gitleaks>=8.18.0", "detect-secrets>=1.4.0", "safety>=2.3.5"]

/-- Enhanced tools, level 2 and above (lines 1028-1035 `enhancedTools`). -/
def enhancedTools : List String :=
  ["bandit[toml]>=1.7.5", "black>=23.9.1", "flake8>=6.1.0", "sqlfluff>=2.3.2",
   "semgrep>=1.45.0", "checkov>=3.0.0"]

/-- Maximum tools, level 3 (lines 1038-1046 `maximumTools`). -/
def maximumTools : List String :=
  ["mypy>=1.6.0", "pylint>=3.0.0", "trufflehog>=3.63.0", "pip-audit>=2.6.1",
   "cyclonedx-bom>=4.0.0", "osv-scanner>=1.4.3", "vulndb>=1.0.0"]

/-- Accumulation of the tool manifest entries by security level
(lines 1048-1050 of `generateRequirementsFile`). -/
def allTools (securityLevel : Nat) : List String :=
  let tools := baseTools
  let tools := if 2 ≤ securityLevel then tools ++ enhancedTools else tools
  if 3 ≤ securityLevel then tools ++ maximumTools else tools

/-- Full text of `requirements.dev.assist.txt` (lines 1013-1056). -/
def requirementsContent (securityLevel : Nat) : String :=
  "# Universal Smart Pre-commit Requirements\n"
  ++ "# Comprehensive enterprise security and quality tools\n"
  ++ "# Includes vulnerability scanning and content analysis\n\n"
  ++ String.intercalate "\n" (allTools securityLevel) ++ "\n"
  ++ "\n# Additional security validation\n"
  ++ "# Run: pip-audit --desc --output json\n"
  ++ "# Run: safety check --json\n"
  ++ "# Run: osv-scanner --lockfile requirements.txt\n"

/-- Parsed content of one JSON package manifest, as far as
`readPackageJson` consumes it: its `dependencies` and `devDependencies`
entries (name, version pairs in object order). -/
structure Pkg where
  dependencies : List (String × String)
  devDependencies : List (String × String)
deriving DecidableEq

/-- The file-system surface the script reads.  `fileExists` models
`fs.existsSync`, `globHits p` models `glob.sync(p).length > 0` (with its
`simplePatternCheck` fallback), `parsePkg` models `JSON.parse` of an existing
manifest (`Except.error` is invalid JSON), `dirExists` and `srcExts` model
the `scanSourceDirectories` walk (the nonempty extensions of files found
under a directory). -/
structure FS where
  fileExists : String → Bool
  globHits : String → Bool
  parsePkg : String → Except Unit Pkg
  dirExists : String → Bool
  srcExts : String → List String

/-- One row of the `universalChecks` rule table of `detectTechnologies`
(lines 114-308): marker files, glob patterns, the contributed tag and the
display name. -/
structure Check where
  files : List String := []
  patterns : List String := []
  tech : String
  name : String
deriving DecidableEq

/-- The fixed `universalChecks` rule table (lines 114-308), transcribed row
by row in source order. -/
def universalChecks : List Check :=
  [ { files := ["client/package.json"], tech := "react-frontend", name := "React Frontend Enterprise" },
    { files := ["server/package.json"], tech := "node-backend", name := "Node.js Backend Enterprise" },
    { files := ["package.json"], tech := "nodejs", name := "Node.js Application" },
    { files := ["vite.config.js", "vite.config.mjs", "client/vite.config.mjs"], tech := "vite", name := "Vite Build System" },
    { files := ["tsconfig.json", "client/tsconfig.json"], tech := "typescript", name := "TypeScript" },
    { files := ["next.config.js"], tech := "nextjs", name := "Next.js Framework" },
    { files := ["nuxt.config.js", "nuxt.config.ts"], tech := "nuxtjs", name := "Nuxt.js Framework" },
    { files := ["angular.json"], tech := "angular", name := "Angular Framework" },
    { files := ["vue.config.js"], tech := "vuejs", name := "Vue.js Framework" },
    { files := ["svelte.config.js"], tech := "svelte", name := "Svelte Framework" },
    { patterns := ["*.sql"], tech := "sql", name := "SQL Database Scripts" },
    { files := ["developmentQueries.sql", "prod-scripts.sql"], tech := "sql-enterprise", name := "Enterprise SQL" },
    { files := ["prisma/schema.prisma"], tech := "prisma", name := "Prisma ORM" },
    { files := ["knexfile.js"], tech := "knex", name := "Knex.js Query Builder" },
    { files := ["sequelize.config.js"], tech := "sequelize", name := "Sequelize ORM" },
    { files := ["requirements.txt", "requirements.dev.assist.txt"], tech := "python", name := "Python Application" },
    { files := ["pyproject.toml"], tech := "python-modern", name := "Modern Python Project" },
    { files := ["Pipfile"], tech := "pipenv", name := "Pipenv Package Manager" },
    { files := ["poetry.lock"], tech := "poetry", name := "Poetry Package Manager" },
    { files := ["environment.yml"], tech := "conda", name := "Conda Environment" },
    { files := ["jupyter"], tech := "jupyter", name := "Jupyter Notebooks" },
    { patterns := ["*.py"], tech := "python", name := "Python Scripts" },
    { patterns := ["*.ipynb"], tech := "jupyter", name := "Jupyter Notebooks" },
    { patterns := ["*.csproj"], tech := "dotnet", name := ".NET Core/Framework" },
    { patterns := ["*.sln"], tech := "dotnet-solution", name := "Visual Studio Solution" },
    { files := ["appsettings.json"], tech := "aspnet", name := "ASP.NET Core" },
    { files := ["global.json"], tech := "dotnet-sdk", name := ".NET SDK Project" },
    { files := ["pom.xml"], tech := "maven", name := "Maven Project" },
    { files := ["build.gradle", "build.gradle.kts"], tech := "gradle", name := "Gradle Project" },
    { files := ["application.properties"], tech := "spring", name := "Spring Framework" },
    { patterns := ["*.java"], tech := "java", name := "Java Application" },
    { patterns := ["*.kt"], tech := "kotlin", name := "Kotlin Application" },
    { patterns := ["*.scala"], tech := "scala", name := "Scala Application" },
    { files := ["ios/Podfile"], tech := "react-native", name := "React Native" },
    { files := ["android/build.gradle"], tech := "react-native", name := "React Native" },
    { files := ["flutter/pubspec.yaml"], tech := "flutter", name := "Flutter Framework" },
    { files := ["capacitor.config.ts"], tech := "ionic", name := "Ionic Framework" },
    { files := ["Dockerfile"], tech := "docker", name := "Docker Containers" },
    { files := ["docker-compose.yml", "docker-compose.yaml"], tech := "docker-compose", name := "Docker Compose" },
    { files := ["kubernetes"], tech := "kubernetes", name := "Kubernetes Manifests" },
    { files := ["helm"], tech := "helm", name := "Helm Charts" },
    { files := ["terraform"], tech := "terraform", name := "Terraform Infrastructure" },
    { files := ["ansible"], tech := "ansible", name := "Ansible Playbooks" },
    { patterns := [".github/workflows/*.yml"], tech := "github-actions", name := "GitHub Actions CI/CD" },
    { files := [".gitlab-ci.yml"], tech := "gitlab-ci", name := "GitLab CI/CD" },
    { files := ["azure-pipelines.yml"], tech := "azure-devops", name := "Azure DevOps" },
    { files := ["jenkinsfile"], tech := "jenkins", name := "Jenkins CI/CD" },
    { files := ["jest.config.js", "server/jest.config.js"], tech := "jest", name := "Jest Testing" },
    { files := ["cypress.config.js"], tech := "cypress", name := "Cypress E2E Testing" },
    { files := ["playwright.config.js"], tech := "playwright", name := "Playwright Testing" },
    { files := ["vitest.config.js"], tech := "vitest", name := "Vitest Testing" },
    { files := ["karma.conf.js"], tech := "karma", name := "Karma Testing" },
    { files := ["protractor.conf.js"], tech := "protractor", name := "Protractor E2E" },
    { files := ["webpack.config.js"], tech := "webpack", name := "Webpack Bundler" },
    { files := ["rollup.config.js"], tech := "rollup", name := "Rollup Bundler" },
    { files := ["parcel"], tech := "parcel", name := "Parcel Bundler" },
    { files := ["esbuild.config.js"], tech := "esbuild", name := "ESBuild" },
    { patterns := ["*.msapp"], tech := "powerapps", name := "Power Apps" },
    { patterns := ["*.pbit", "*.pbix"], tech := "powerbi", name := "Power BI" },
    { patterns := ["*.flow"], tech := "powerautomate", name := "Power Automate" },
    { files := ["CODEOWNERS"], tech := "enterprise-governance", name := "Enterprise Code Governance" },
    { files := ["sonar-project.properties"], tech := "sonarqube", name := "SonarQube Analysis" } ]

/-- Whether one rule of the table fires (lines 311-329): some marker file
exists, or - when none did - some glob pattern has hits. -/
def checkFound (fs : FS) (c : Check) : Bool :=
  let found := c.files.any fs.fileExists
  if !found then c.patterns.any fs.globHits else found

/-- Insertion into the detected tag set: `Set.prototype.add` keeps insertion
order and ignores an element already present. -/
def addTech (tags : List String) (tech : String) : List String :=
  if tags.contains tech then tags else tags ++ [tech]

/-- The tag set accumulated by the `universalChecks.forEach` scan
(lines 311-333), in rule-table order. -/
def collectTags (fs : FS) : List String :=
  universalChecks.foldl (fun tags c => if checkFound fs c then addTech tags c.tech else tags) []

/-- Transcription of `readPackageJson` (lines 372-391): merge the
`dependencies` and `devDependencies` of the manifests at the three
conventional locations; a missing file or a JSON parse error contributes
nothing (`Object.assign` accumulation, later entries overriding earlier
ones on lookup). -/
def readPackageJson (fs : FS) : List (String × String) :=
  ["package.json", "client/package.json", "server/package.json"].foldl
    (fun packages file =>
      if fs.fileExists file then
        match fs.parsePkg file with
        | Except.ok content => packages ++ content.dependencies ++ content.devDependencies
        | Except.error _ => packages
      else packages)
    []

/-- Truthiness of a merged package entry (`packages.react` etc.): the last
assigned version string, nonempty.  JS `Object.assign` lets later sources
override, so lookup takes the last pair. -/
def pkgHas (packages : List (String × String)) (key : String) : Bool :=
  match packages.reverse.lookup key with
  | some v => v != ""
  | none => false

/-- The `scanSourceDirectories` walk (lines 393-416): for each conventional
source directory that exists, classify by the set of file extensions found
under it. -/
def scanSourceDirectories (fs : FS) (tags : List String) : List String :=
  ["src", "client/src", "server/src", "app", "lib"].foldl
    (fun tags dir =>
      if fs.dirExists dir then
        let exts := fs.srcExts dir
        let tags := if exts.contains ".tsx" || exts.contains ".jsx" then addTech tags "react-components" else tags
        let tags := if exts.contains ".ts" && !(exts.contains ".tsx") then addTech tags "typescript-pure" else tags
        if exts.contains ".py" then addTech tags "python-source" else tags
      else tags)
    tags

/-- The FIRST definition of `advancedContentAnalysis` (lines 348-370):
framework detection from package-manifest dependencies, then the source
directory scan.  In the running script this definition is dead code: a
second method of the same name (lines 482-484) is defined later in the class
body and silently shadows it. -/
def advancedContentAnalysisFirst (fs : FS) (tags : List String) : List String :=
  let tags :=
    if fs.fileExists "package.json" || fs.fileExists "client/package.json" then
      let packages := readPackageJson fs
      let tags := if pkgHas packages "react" || pkgHas packages "@types/react" then addTech tags "react" else tags
      let tags := if pkgHas packages "vue" || pkgHas packages "@vue/cli-service" then addTech tags "vuejs" else tags
      let tags := if pkgHas packages "@angular/core" then addTech tags "angular" else tags
      if pkgHas packages "express" || pkgHas packages "koa" || pkgHas packages "fastify" then addTech tags "node-server" else tags
    else tags
  scanSourceDirectories fs tags

/-- The SECOND, effective definition of `advancedContentAnalysis`
(lines 482-484), the one `detectTechnologies` actually invokes at runtime:
it only prints the tag list and adds nothing. -/
def advancedContentAnalysis (tags : List String) : List String :=
  tags

/-- Transcription of `detectTechnologies` (lines 110-346): run the rule
table, run (the effective) `advancedContentAnalysis`, and substitute the
sentinel `generic` tag when nothing was detected. -/
def detectTechnologies (fs : FS) : List String :=
  let tags := collectTags fs
  let tags := advancedContentAnalysis tags
  if tags.length = 0 then addTech tags "generic" else tags

/-- Serialization of one hook entry of the YAML document
(lines 993-1006 of `generateYAMLConfig`), fields in source order;
`pass_filenames` is never serialized. -/
def yamlHook (h : Hook) : String :=
  "      - id: " ++ h.id ++ "\n"
  ++ (match h.name with | some v => "        name: " ++ v ++ "\n" | none => "")
  ++ (match h.entry with | some v => "        entry: " ++ v ++ "\n" | none => "")
  ++ (match h.language with | some v => "        language: " ++ v ++ "\n" | none => "")
  ++ (match h.files with | some v => "        files: " ++ v ++ "\n" | none => "")
  ++ (match h.exclude with | some v => "        exclude: " ++ v ++ "\n" | none => "")
  ++ (match h.args with
      | some l => "        args:\n" ++ String.join (l.map (fun a => "          - " ++ a ++ "\n"))
      | none => "")
  ++ (match h.language_version with | some v => "        language_version: " ++ v ++ "\n" | none => "")

/-- Serialization of one repository record (lines 986-1008). -/
def yamlRepo (r : Repo) : String :=
  "  - repo: " ++ r.repo ++ "\n"
  ++ (match r.rev with | some v => "    rev: " ++ v ++ "\n" | none => "")
  ++ "    hooks:\n"
  ++ String.join (r.hooks.map yamlHook)
  ++ "\n"

/-- Transcription of `generateYAMLConfig` (lines 974-1011): fixed header,
the detected technologies line, then the serialized repository list. -/
def generateYAMLConfig (detectedTech : List String) (repos : List Repo) : String :=
  "# Universal Smart Pre-commit Configuration\n"
  ++ "# Generated for comprehensive enterprise-grade code quality\n"
  ++ "# Security: Gitleaks, TruffleHog, Bandit, detect-secrets\n"
  ++ "# AI Detection: Emoji patterns, encoded content, digital signatures\n"
  ++ "# Vulnerability: Package scanning, suspicious patterns\n"
  ++ "# Quality: ESLint, Prettier, Black, SQLFluff\n"
  ++ "# Technologies: " ++ String.intercalate ", " detectedTech ++ "\n\n"
  ++ "repos:\n"
  ++ String.join (repos.map yamlRepo)

/-- The command-line mode flags (lines 28-29 of the constructor). -/
structure Args where
  isInteractive : Bool
  detectOnly : Bool
deriving DecidableEq

/-- The file writes performed by `generateConfiguration` (line 898) and the
`generateRequirementsFile` it calls (line 1058), in order: the YAML
configuration document, then the tool manifest. -/
def generateConfigurationWrites (isWindows : Bool) (detectedTech : List String)
    (securityLevel : Nat) : List (String × String) :=
  [ (".pre-commit-config.yaml",
     generateYAMLConfig detectedTech (generateConfiguration isWindows detectedTech securityLevel)),
    ("requirements.dev.assist.txt", requirementsContent securityLevel) ]

/-- The file-write trace of `run` (lines 46-71): detection always happens
first; in detect-only mode the process exits before any setup, so nothing is
written; interactive setup uses the answered security level
(line 92), quick setup is fixed at level 3 (line 98). -/
def runWrites (args : Args) (isWindows : Bool) (answeredSecurityLevel : Nat)
    (fs : FS) : List (String × String) :=
  let tags := detectTechnologies fs
  if args.detectOnly then []
  else if args.isInteractive then generateConfigurationWrites isWindows tags answeredSecurityLevel
  else generateConfigurationWrites isWindows tags 3

/-- The regex pattern text a generated Windows command feeds to
`Select-String`, paired with whether matching is case-insensitive.
PowerShell `Select-String -Pattern` matches case-insensitively unless
`-CaseSensitive` is passed; no generated command passes it, so the flag is
`true` for every content-scanning command type.  The pattern texts are the
exact `-Pattern` arguments of `generateWindowsCommand`. -/
def windowsMatchSemantics (commandType pattern : String) : Option (String × Bool) :=
  match commandType with
  | "grep" => some (pattern, true)
  | "js-files" => some (pattern, true)
  | "enterprise-patterns" => some ("@shell\\.com|@sede\\.com|password\\s*=|api[_-]?key\\s*[=:]", true)
  | "emoji-detector" => some ("[\\u\x7b1F600\x7d-\\u\x7b1F64F\x7d]|[\\u\x7b1F300\x7d-\\u\x7b1F5FF\x7d]|[\\u\x7b1F680\x7d-\\u\x7b1F6FF\x7d]", true)
  | "encoding-cipher" => some ("base64|btoa|atob|-----BEGIN|-----END|[A-Za-z0-9+/]\x7b40,\x7d=", true)
  | "suspicious-patterns" => some ("eval\\(|exec\\(|system\\(|shell_exec|passthru|popen|proc_open|file_get_contents.*http|curl_exec|wget|powershell|cmd\\.exe", true)
  | _ => none

/-- The regex pattern text a generated Unix command feeds to `grep`, paired
with whether matching is case-insensitive.  `grep` is case-sensitive unless
`-i` is passed; of the generated commands only the `suspicious-patterns` one
uses `-iE`, every other one plain `-E` (or `-P`, or an unflagged `grep -l`
for `js-files`).  The pattern texts are the exact quoted pattern arguments of
`generateUnixCommand`. -/
def unixMatchSemantics (commandType pattern : String) : Option (String × Bool) :=
  match commandType with
  | "grep" => some (pattern, false)
  | "js-files" => some (pattern, false)
  | "enterprise-patterns" => some ("(@shell\\.com|@sede\\.com|password\\s*=|api[_-]?key\\s*[=:])", false)
  | "emoji-detector" => some ("[\\x\x7b1F600\x7d-\\x\x7b1F64F\x7d]|[\\x\x7b1F300\x7d-\\x\x7b1F5FF\x7d]|[\\x\x7b1F680\x7d-\\x\x7b1F6FF\x7d]", false)
  | "encoding-cipher" => some ("(base64|btoa|atob|-----BEGIN|-----END|[A-Za-z0-9+/]\x7b40,\x7d=)", false)
  | "suspicious-patterns" => some ("(eval\\(|exec\\(|system\\(|shell_exec|passthru|popen|proc_open|file_get_contents\\(.*http|curl_exec|wget|powershell|cmd\\.exe)", true)
  | _ => none

/-- Boolean infix test on character lists: does `a` occur contiguously in `s`. -/
def litInfix (a : List Char) : List Char → Bool
  | [] => a.isEmpty
  | c :: s => a.isPrefixOf (c :: s) || litInfix a s

/-- Matching of one purely literal alternation branch of a detector pattern
against one line of input, under the given case flag: the branch matches if
it occurs in the line, comparing case-insensitively when the flag is set.
This is the exact regex semantics of a branch with no metacharacters. -/
def ciLitMatches (caseInsensitive : Bool) (branch line : List Char) : Bool :=
  if caseInsensitive then litInfix (branch.map Char.toLower) (line.map Char.toLower)
  else litInfix branch line

/-- The suffix of `s` after the first occurrence of `a`, when `a` occurs. -/
def afterFirst (a : List Char) : List Char → Option (List Char)
  | [] => if a = [] then some [] else none
  | c :: s => if a.isPrefixOf (c :: s) then some ((c :: s).drop a.length) else afterFirst a s

/-- Matching of a branch of the shape `A.*B` (literal, any gap, literal)
against one line: `A` occurs, and `B` occurs after it.  This is the exact
regex semantics of such a branch on a single line. -/
def litGapLitMatches (a b s : List Char) : Bool :=
  match afterFirst a s with
  | some rest => litInfix b rest
  | none => false

/-- Deduplication by identifier keeping the first occurrence, with an
accumulator of identifiers already seen. -/
def dedupFirstAux (seen : List String) : List String → List String
  | [] => []
  | x :: xs => if seen.contains x then dedupFirstAux seen xs else x :: dedupFirstAux (x :: seen) xs

/-- Deduplication by identifier, keeping the first occurrence - the
Composer behaviour the specification ascribes to the renderer. -/
def dedupFirst (l : List String) : List String :=
  dedupFirstAux [] l

/-- Every hook identifier `generateConfiguration` can ever emit, in the
composed order: base security, then enhanced, then maximum, then the
technology groups in their fixed evaluation order. -/
def masterIds : List String :=
  ["gitleaks", "trufflehog",
   "detect-private-key", "check-merge-conflict", "check-added-large-files",
   "end-of-file-fixer", "trailing-whitespace", "detect-secrets", "package-vulnerability-scan",
   "enterprise-patterns", "console-log-detector", "emoji-ai-detector",
   "encoding-cipher-detector", "digital-signature-detector", "suspicious-strings-detector",
   "eslint", "prettier", "black", "flake8", "bandit",
   "sqlfluff-lint", "dotnet-format", "hadolint-docker"]

/-- The four-way partition of the claimably emitted identifiers:
0 = base security, 1 = enhanced security, 2 = maximum security,
3 = technology-specific. -/
def idCategory (i : String) : Nat :=
  if ["gitleaks", "trufflehog"].contains i then 0
  else if ["detect-private-key", "check-merge-conflict", "check-added-large-files",
           "end-of-file-fixer", "trailing-whitespace", "detect-secrets",
           "package-vulnerability-scan"].contains i then 1
  else if ["enterprise-patterns", "console-log-detector", "emoji-ai-detector",
           "encoding-cipher-detector", "digital-signature-detector",
           "suspicious-strings-detector"].contains i then 2
  else 3

/-- The maximum-security identifiers (the level-3 `local` group). -/
def maximumSecurityIds : List String :=
  ["enterprise-patterns", "console-log-detector", "emoji-ai-detector",
   "encoding-cipher-detector", "digital-signature-detector", "suspicious-strings-detector"]

/-- Count of hook entries of a configuration whose `files` filter is the
given pattern. -/
def countHooksWithFiles (filesFilter : String) (repos : List Repo) : Nat :=
  ((repos.map (fun r => r.hooks.filter (fun h => h.files == some filesFilter))).flatten).length

/-- The identifiers of the technology groups that are unconditional on the
security level: once its tag predicate fires, each of these is appended at
every level, while Prettier, Flake8 and Bandit additionally require level 2. -/
def unconditionalTechIds (tags : List String) : List String :=
  (if hasAnyTech ["react-frontend", "nodejs", "typescript", "react", "vuejs", "angular"] tags then ["eslint"] else [])
  ++ (if hasAnyTech ["python", "python-source", "python-modern"] tags then ["black"] else [])
  ++ (if hasAnyTech ["sql", "sql-enterprise"] tags then ["sqlfluff-lint"] else [])
  ++ (if hasAnyTech ["dotnet", "aspnet"] tags then ["dotnet-format"] else [])
  ++ (if hasAnyTech ["docker"] tags then ["hadolint-docker"] else [])

/-- The file system with one path made nonexistent; everything else
unchanged. -/
def withoutFile (fs : FS) (p : String) : FS :=
  { fs with fileExists := fun q => if q = p then false else fs.fileExists q }

/-- A project tree with no files, no glob hits, no parseable manifests and
no source directories: nothing any detection rule looks for exists. -/
def emptyProjectFS : FS :=
  { fileExists := fun _ => false, globHits := fun _ => false,
    parsePkg := fun _ => Except.error (), dirExists := fun _ => false,
    srcExts := fun _ => [] }

/-- The project tree of the specification Scenario B: a root `package.json`
whose dependencies include `react`, and a root `tsconfig.json`; nothing
else. -/
def scenarioBFS : FS :=
  { fileExists := fun p => p == "package.json" || p == "tsconfig.json",
    globHits := fun _ => false,
    parsePkg := fun p => if p == "package.json"
      then Except.ok { dependencies := [("react", "^18.2.0")], devDependencies := [] }
      else Except.error (),
    dirExists := fun _ => false,
    srcExts := fun _ => [] }

/-- A project tree whose three conventional manifests all exist, with the
`client/package.json` one holding invalid JSON. -/
def malformedClientFS : FS :=
  { fileExists := fun p =>
      p == "package.json" || p == "client/package.json" || p == "server/package.json",
    globHits := fun _ => false,
    parsePkg := fun p =>
      if p == "package.json"
        then Except.ok { dependencies := [("express", "^4.18.0")], devDependencies := [] }
      else if p == "server/package.json"
        then Except.ok { dependencies := [], devDependencies := [("jest", "^29.0.0")] }
      else Except.error (),
    dirExists := fun _ => false,
    srcExts := fun _ => [] }

/-- The directory state left behind by a prior run of the tool: only its own
output file `requirements.dev.assist.txt` exists at the root. -/
def selfMarkerFS : FS :=
  { fileExists := fun p => p == "requirements.dev.assist.txt",
    globHits := fun _ => false,
    parsePkg := fun _ => Except.error (), dirExists := fun _ => false,
    srcExts := fun _ => [] }

lemma dedupFirstAux_of_nodup (l : List String) : ∀ seen : List String,
    l.Nodup → (∀ x ∈ l, x ∉ seen) → dedupFirstAux seen l = l := by
  induction l with
  | nil => intro seen _ _; rfl
  | cons x xs ih =>
      intro seen hn hd
      have hx : seen.contains x = false := by
        simpa using hd x (List.mem_cons_self x xs)
      have hxs : xs.Nodup := (List.nodup_cons.mp hn).2
      have hxnot : x ∉ xs := (List.nodup_cons.mp hn).1
      have hd₂ : ∀ y ∈ xs, y ∉ x :: seen := by
        intro y hy
        simp only [List.mem_cons, not_or]
        exact ⟨fun h => hxnot (h ▸ hy), hd y (List.mem_cons_of_mem _ hy)⟩
      simp only [dedupFirstAux, hx, Bool.false_eq_true, if_false,
        ih (x :: seen) hxs hd₂]

lemma dedupFirst_of_nodup (l : List String) (h : l.Nodup) : dedupFirst l = l :=
  dedupFirstAux_of_nodup l [] h (by simp)

lemma hookIds_append (a b : List Repo) : hookIds (a ++ b) = hookIds a ++ hookIds b := by
  simp [hookIds]

lemma hookIds_ite (c : Prop) [Decidable c] (l : List Repo) :
    hookIds (if c then l else []) = if c then hookIds l else [] := by
  split <;> simp [hookIds]

lemma ite_sublist {α : Type} (c : Prop) [Decidable c] (l : List α) :
    List.Sublist (if c then l else []) l := by
  split
  · exact List.Sublist.refl _
  · exact List.nil_sublist _

lemma hookIds_techConfigs_sublist (tags : List String) (level : Nat) :
    List.Sublist (hookIds (techConfigs tags level))
      ["eslint", "prettier", "black", "flake8", "bandit",
       "sqlfluff-lint", "dotnet-format", "hadolint-docker"] := by
  have hjs : List.Sublist (hookIds (if hasAnyTech ["react-frontend", "nodejs", "typescript", "react", "vuejs", "angular"] tags
      then [eslintRepo] ++ (if 2 ≤ level then [prettierRepo] else []) else [])) ["eslint", "prettier"] := by
    split
    · rw [hookIds_append]
      have h : List.Sublist (hookIds (if 2 ≤ level then [prettierRepo] else [])) (hookIds [prettierRepo]) := by
        rw [hookIds_ite]; split
        · exact List.Sublist.refl _
        · exact List.nil_sublist _
      simpa [hookIds, eslintRepo, prettierRepo] using h.cons₂ "eslint"
    · simp [hookIds]
  have hpy : List.Sublist (hookIds (if hasAnyTech ["python", "python-source", "python-modern"] tags
      then [blackRepo] ++ (if 2 ≤ level then [flake8Repo, banditRepo] else []) else [])) ["black", "flake8", "bandit"] := by
    split
    · rw [hookIds_append]
      have h : List.Sublist (hookIds (if 2 ≤ level then [flake8Repo, banditRepo] else [])) (hookIds [flake8Repo, banditRepo]) := by
        rw [hookIds_ite]; split
        · exact List.Sublist.refl _
        · exact List.nil_sublist _
      simpa [hookIds, blackRepo, flake8Repo, banditRepo] using h.cons₂ "black"
    · simp [hookIds]
  have hsql : List.Sublist (hookIds (if hasAnyTech ["sql", "sql-enterprise"] tags then [sqlfluffRepo] else [])) ["sqlfluff-lint"] := by
    rw [hookIds_ite]; split <;> simp [hookIds, sqlfluffRepo]
  have hnet : List.Sublist (hookIds (if hasAnyTech ["dotnet", "aspnet"] tags then [dotnetRepo] else [])) ["dotnet-format"] := by
    rw [hookIds_ite]; split <;> simp [hookIds, dotnetRepo]
  have hdoc : List.Sublist (hookIds (if hasAnyTech ["docker"] tags then [hadolintRepo] else [])) ["hadolint-docker"] := by
    rw [hookIds_ite]; split <;> simp [hookIds, hadolintRepo]
  have hsplit : hookIds (techConfigs tags level)
      = hookIds (if hasAnyTech ["react-frontend", "nodejs", "typescript", "react", "vuejs", "angular"] tags
          then [eslintRepo] ++ (if 2 ≤ level then [prettierRepo] else []) else [])
        ++ (hookIds (if hasAnyTech ["python", "python-source", "python-modern"] tags
          then [blackRepo] ++ (if 2 ≤ level then [flake8Repo, banditRepo] else []) else [])
        ++ (hookIds (if hasAnyTech ["sql", "sql-enterprise"] tags then [sqlfluffRepo] else [])
        ++ (hookIds (if hasAnyTech ["dotnet", "aspnet"] tags then [dotnetRepo] else [])
        ++ hookIds (if hasAnyTech ["docker"] tags then [hadolintRepo] else [])))) := by
    rw [techConfigs]
    simp only [List.append_assoc, hookIds_append]
  rw [hsplit]
  exact hjs.append (hpy.append (hsql.append (hnet.append hdoc)))

/-- Every configuration's identifier list is a sublist of `masterIds`: the
blocks appear in composed order and each block contributes a sub-block of
its fixed identifiers. -/
lemma hookIds_config_sublist (isWindows : Bool) (tags : List String) (level : Nat) :
    List.Sublist (hookIds (generateConfiguration isWindows tags level)) masterIds := by
  have hbase : hookIds baseSecurity = ["gitleaks", "trufflehog"] := by rfl
  have henh : List.Sublist (hookIds (if 2 ≤ level then enhancedSecurity isWindows else []))
      ["detect-private-key", "check-merge-conflict", "check-added-large-files",
       "end-of-file-fixer", "trailing-whitespace", "detect-secrets", "package-vulnerability-scan"] := by
    rw [hookIds_ite]; split
    · cases isWindows <;> exact List.Sublist.refl _
    · exact List.nil_sublist _
  have hmax : List.Sublist (hookIds (if 3 ≤ level then maximumSecurity isWindows else [])) maximumSecurityIds := by
    rw [hookIds_ite]; split
    · cases isWindows <;> exact List.Sublist.refl _
    · exact List.nil_sublist _
  have htech := hookIds_techConfigs_sublist tags level
  have : hookIds (generateConfiguration isWindows tags level)
      = hookIds baseSecurity ++ (hookIds (if 2 ≤ level then enhancedSecurity isWindows else [])
        ++ (hookIds (if 3 ≤ level then maximumSecurity isWindows else [])
        ++ hookIds (techConfigs tags level))) := by
    rw [generateConfiguration]
    simp only [List.append_assoc, hookIds_append]
  rw [this, hbase]
  exact (List.Sublist.refl ["gitleaks", "trufflehog"]).append
    (henh.append (hmax.append htech))

lemma mem_addTech_self (tags : List String) (t : String) : t ∈ addTech tags t := by
  unfold addTech; split
  · next h => simpa using h
  · simp

lemma mem_addTech_of_mem (tags : List String) (t x : String) (h : x ∈ tags) :
    x ∈ addTech tags t := by
  unfold addTech; split
  · exact h
  · exact List.mem_append_left _ h

lemma mem_foldl_checks (fs : FS) (l : List Check) :
    ∀ (acc : List String) (x : String), x ∈ acc →
      x ∈ l.foldl (fun tags c => if checkFound fs c then addTech tags c.tech else tags) acc := by
  induction l with
  | nil => intro acc x hx; simpa using hx
  | cons c cs ih =>
      intro acc x hx
      simp only [List.foldl_cons]
      apply ih
      split
      · exact mem_addTech_of_mem _ _ _ hx
      · exact hx

lemma tech_mem_foldl_checks (fs : FS) (l : List Check) :
    ∀ (acc : List String) (c : Check), c ∈ l → checkFound fs c = true →
      c.tech ∈ l.foldl (fun tags c => if checkFound fs c then addTech tags c.tech else tags) acc := by
  induction l with
  | nil => intro acc c hc; exact absurd hc (List.not_mem_nil c)
  | cons a cs ih =>
      intro acc c hc hf
      rcases List.mem_cons.mp hc with rfl | hc'
      · simp only [List.foldl_cons, hf, if_true]
        exact mem_foldl_checks fs cs _ _ (mem_addTech_self acc c.tech)
      · simp only [List.foldl_cons]
        exact ih _ c hc' hf

lemma foldl_no_found (fs : FS) (l : List Check)
    (h : ∀ c ∈ l, checkFound fs c = false) (acc : List String) :
    l.foldl (fun tags c => if checkFound fs c then addTech tags c.tech else tags) acc = acc := by
  induction l generalizing acc with
  | nil => rfl
  | cons c cs ih =>
      have hc : checkFound fs c = false := h c (List.mem_cons_self c cs)
      simp only [List.foldl_cons, hc, Bool.false_eq_true, if_false]
      exact ih (fun d hd => h d (List.mem_cons_of_mem _ hd)) acc

lemma foldl_ext_mem {α β : Type} (l : List α) (f g : β → α → β)
    (h : ∀ (b : β), ∀ a ∈ l, f b a = g b a) : ∀ b : β, l.foldl f b = l.foldl g b := by
  induction l with
  | nil => intro b; rfl
  | cons a l' ih =>
      intro b
      simp only [List.foldl_cons]
      rw [h b a (List.mem_cons_self a l'), ih (fun b' a' ha' => h b' a' (List.mem_cons_of_mem _ ha'))]

lemma black_mem_of_python (isWindows : Bool) (tags : List String) (level : Nat)
    (h : hasAnyTech ["python", "python-source", "python-modern"] tags = true) :
    "black" ∈ hookIds (generateConfiguration isWindows tags level) := by
  rw [generateConfiguration]
  simp only [List.append_assoc, hookIds_append, List.mem_append]
  right; right; right
  rw [techConfigs]
  simp only [List.append_assoc, hookIds_append, List.mem_append, h, if_true]
  right; left
  simp [hookIds_append, hookIds, blackRepo]

/-- C1 counterexample: on the Scenario B project tree (root `package.json`
with dependency `react`, root `tsconfig.json`) the detected TagSet does NOT
include `react`: the dependency-analysis definition of
`advancedContentAnalysis` is shadowed by the later definition of the same
name, which only prints, so no dependency-derived tag is ever added. -/
theorem scenarioB_react_not_detected : "react" ∉ detectTechnologies scenarioBFS := by
  decide

/-- C1 (amended): on the Scenario B project tree detection yields exactly
the TagSet \x7bnodejs, typescript\x7d - `react` is missing because the
dependency-analysis routine that would add it (the first, shadowed
`advancedContentAnalysis`, which does add `react` when run on the same
state) is dead code - and at every security level 1-3, on either platform,
the composed configuration has exactly one hook group whose file filter is
the `.js|.jsx|.ts|.tsx` pattern. -/
theorem scenarioB_detection (isWindows : Bool) (securityLevel : Nat)
    (h : securityLevel = 1 ∨ securityLevel = 2 ∨ securityLevel = 3) :
    detectTechnologies scenarioBFS = ["nodejs", "typescript"] ∧
    "react" ∈ advancedContentAnalysisFirst scenarioBFS (collectTags scenarioBFS) ∧
    countHooksWithFiles "\\.(js|jsx|ts|tsx)$"
      (generateConfiguration isWindows (detectTechnologies scenarioBFS) securityLevel) = 1 := by
  rcases h with rfl | rfl | rfl <;> cases isWindows <;>
    exact ⟨by decide, by decide, by decide⟩

/-- Witness for the amended C1 claim at a concrete security level and
platform. -/
theorem scenarioB_detection_check :
    detectTechnologies scenarioBFS = ["nodejs", "typescript"] ∧
    "react" ∈ advancedContentAnalysisFirst scenarioBFS (collectTags scenarioBFS) ∧
    countHooksWithFiles "\\.(js|jsx|ts|tsx)$"
      (generateConfiguration false (detectTechnologies scenarioBFS) 2) = 1 :=
  scenarioB_detection false 2 (Or.inr (Or.inl rfl))

/-- C2: the two platform command variants do NOT implement identical
matching semantics.  The Windows `Select-String` commands match
case-insensitively (its default) while the Unix `grep` commands are
case-sensitive except for `suspicious-patterns` (`-iE`): the literal branch
`base64` of the `encoding-cipher` pattern - present verbatim in both
extracted patterns - matches the line `uses BASE64 encoding` under the
Windows case flag and not under the Unix one, and the same ci flags diverge
for the interpolated `js-files` pattern `console.log`.  Moreover the
`suspicious-patterns` pattern texts themselves differ: the Windows command
carries the branch `file_get_contents.*http` while the Unix command carries
`file_get_contents\(.*http`, and a line with `file_get_contents` but no
opening parenthesis before `http` matches the former branch and not the
latter. -/
theorem platform_matching_semantics_diverge :
    ((windowsMatchSemantics "encoding-cipher" "").map Prod.snd = some true
      ∧ (unixMatchSemantics "encoding-cipher" "").map Prod.snd = some false)
    ∧ ((windowsMatchSemantics "js-files" "console.log").map Prod.snd = some true
      ∧ (unixMatchSemantics "js-files" "console.log").map Prod.snd = some false)
    ∧ litInfix "base64".toList (((windowsMatchSemantics "encoding-cipher" "").getD ("", false)).1.toList) = true
    ∧ litInfix "base64".toList (((unixMatchSemantics "encoding-cipher" "").getD ("", false)).1.toList) = true
    ∧ ciLitMatches true "base64".toList "uses BASE64 encoding".toList = true
    ∧ ciLitMatches false "base64".toList "uses BASE64 encoding".toList = false
    ∧ litInfix "file_get_contents.*http".toList
        (generateWindowsCommand "suspicious-patterns" ""
          "No suspicious patterns found" "Suspicious execution patterns found").toList = true
    ∧ litInfix "file_get_contents\\(.*http".toList
        (generateUnixCommand "suspicious-patterns" ""
          "No suspicious patterns found" "Suspicious execution patterns found").toList = true
    ∧ litGapLitMatches "file_get_contents".toList "http".toList
        "res = file_get_contents; url = http target".toList = true
    ∧ litGapLitMatches "file_get_contents(".toList "http".toList
        "res = file_get_contents; url = http target".toList = false := by
  exact ⟨⟨by decide, by decide⟩, ⟨by decide, by decide⟩, by decide, by decide, by decide,
    by decide, by decide, by decide, by decide, by decide⟩

/-- C3: for every tag set and every security level in 1-3 (on either
platform) the composed configuration contains no two hook entries with the
same identifier, and first-occurrence deduplication by identifier leaves it
unchanged. -/
theorem configuration_no_duplicate_identifiers (isWindows : Bool) (tags : List String)
    (securityLevel : Nat)
    (h : securityLevel = 1 ∨ securityLevel = 2 ∨ securityLevel = 3) :
    (hookIds (generateConfiguration isWindows tags securityLevel)).Nodup ∧
    dedupFirst (hookIds (generateConfiguration isWindows tags securityLevel)) =
      hookIds (generateConfiguration isWindows tags securityLevel) := by
  have hsub := hookIds_config_sublist isWindows tags securityLevel
  have hnodup : (hookIds (generateConfiguration isWindows tags securityLevel)).Nodup :=
    List.Nodup.sublist hsub (by decide)
  exact ⟨hnodup, dedupFirst_of_nodup _ hnodup⟩

/-- Witness for C3 at a concrete tag set and level. -/
theorem configuration_no_duplicate_identifiers_check :
    (hookIds (generateConfiguration false ["nodejs", "python"] 2)).Nodup ∧
    dedupFirst (hookIds (generateConfiguration false ["nodejs", "python"] 2)) =
      hookIds (generateConfiguration false ["nodejs", "python"] 2) :=
  configuration_no_duplicate_identifiers false ["nodejs", "python"] 2 (Or.inr (Or.inl rfl))

/-- C4: for every tag set and every security level in 1-3 the configuration
is ordered by block: base-security entries precede enhanced-security
entries, which precede maximum-security entries, which precede
technology-specific entries (the category map is monotone along the hook
list), and the whole identifier list is a sublist of the master list in
composed technology-rule evaluation order. -/
theorem configuration_block_ordering (isWindows : Bool) (tags : List String)
    (securityLevel : Nat)
    (h : securityLevel = 1 ∨ securityLevel = 2 ∨ securityLevel = 3) :
    ((hookIds (generateConfiguration isWindows tags securityLevel)).map idCategory).Pairwise (· ≤ ·) ∧
    List.Sublist (hookIds (generateConfiguration isWindows tags securityLevel)) masterIds := by
  have hsub := hookIds_config_sublist isWindows tags securityLevel
  refine ⟨List.Pairwise.sublist (List.Sublist.map idCategory hsub) ?_, hsub⟩
  decide

/-- Witness for C4 at a concrete tag set and level. -/
theorem configuration_block_ordering_check :
    ((hookIds (generateConfiguration true ["python", "sql"] 3)).map idCategory).Pairwise (· ≤ ·) ∧
    List.Sublist (hookIds (generateConfiguration true ["python", "sql"] 3)) masterIds :=
  configuration_block_ordering true ["python", "sql"] 3 (Or.inr (Or.inr rfl))

/-- C5: the tool manifest entries are monotone in the security level: every
constraint of the level-1 manifest appears in the level-2 manifest, and
every constraint of the level-2 manifest appears in the level-3 manifest
(the manifest does not depend on the tag set at all). -/
theorem toolManifest_monotone :
    (∀ t ∈ allTools 1, t ∈ allTools 2) ∧ (∀ t ∈ allTools 2, t ∈ allTools 3) := by
  decide

/-- Witness for C5 at concrete constraint strings. -/
theorem toolManifest_monotone_check :
    "gitleaks>=8.18.0" ∈ allTools 2 ∧ "black>=23.9.1" ∈ allTools 3 :=
  ⟨toolManifest_monotone.1 "gitleaks>=8.18.0" (by decide),
   toolManifest_monotone.2 "black>=23.9.1" (by decide)⟩

/-- C6: on a project tree that fires no detection rule, detection yields
exactly the singleton `generic` tag set, and the composed configuration
still contains the base-security group (the gitleaks and trufflehog
entries), at every security level and on either platform. -/
theorem generic_fallback (fs : FS) (isWindows : Bool) (securityLevel : Nat)
    (h : ∀ c ∈ universalChecks, checkFound fs c = false) :
    detectTechnologies fs = ["generic"] ∧
    "gitleaks" ∈ hookIds (generateConfiguration isWindows (detectTechnologies fs) securityLevel) ∧
    "trufflehog" ∈ hookIds (generateConfiguration isWindows (detectTechnologies fs) securityLevel) := by
  have hcol : collectTags fs = [] := foldl_no_found fs universalChecks h []
  have hdet : detectTechnologies fs = ["generic"] := by
    simp [detectTechnologies, advancedContentAnalysis, hcol, addTech]
  refine ⟨hdet, ?_, ?_⟩ <;> rw [hdet, generateConfiguration] <;>
    simp only [List.append_assoc, hookIds_append, List.mem_append] <;>
    exact Or.inl (by decide)

/-- Witness for C6 on the concrete empty project tree. -/
theorem generic_fallback_check :
    detectTechnologies emptyProjectFS = ["generic"] ∧
    "gitleaks" ∈ hookIds (generateConfiguration false (detectTechnologies emptyProjectFS) 1) ∧
    "trufflehog" ∈ hookIds (generateConfiguration false (detectTechnologies emptyProjectFS) 1) :=
  generic_fallback emptyProjectFS false 1 (by decide)

/-- C7: in detect-only mode the run writes nothing - no configuration
document and no tool manifest - for every project tree, platform,
interactivity flag and answered security level: the process exits right
after detection, before any setup path is reached. -/
theorem detectOnly_writes_nothing (isInteractive isWindows : Bool)
    (answeredSecurityLevel : Nat) (fs : FS) :
    runWrites { isInteractive := isInteractive, detectOnly := true } isWindows
      answeredSecurityLevel fs = [] := by
  simp [runWrites]

/-- C8: at security level 1 the configuration consists of exactly the
base-security identifiers followed by the identifiers of the
technology-specific groups that are unconditional on the security level
(ESLint, Black, SQLFluff, dotnet-format, Hadolint - not the level-2-gated
Prettier, Flake8 or Bandit), and it contains no maximum-security entry. -/
theorem level_one_configuration (isWindows : Bool) (tags : List String) :
    hookIds (generateConfiguration isWindows tags 1) =
      ["gitleaks", "trufflehog"] ++ unconditionalTechIds tags ∧
    (hookIds (generateConfiguration isWindows tags 1)).all
      (fun i => !(maximumSecurityIds.contains i)) = true := by
  cases h1 : hasAnyTech ["react-frontend", "nodejs", "typescript", "react", "vuejs", "angular"] tags <;>
  cases h2 : hasAnyTech ["python", "python-source", "python-modern"] tags <;>
  cases h3 : hasAnyTech ["sql", "sql-enterprise"] tags <;>
  cases h4 : hasAnyTech ["dotnet", "aspnet"] tags <;>
  cases h5 : hasAnyTech ["docker"] tags <;>
    refine ⟨?_, ?_⟩ <;>
    simp [generateConfiguration, techConfigs, unconditionalTechIds, h1, h2, h3, h4, h5,
      hookIds, baseSecurity, eslintRepo, blackRepo, sqlfluffRepo, dotnetRepo, hadolintRepo,
      maximumSecurityIds]

/-- C9: a package manifest holding invalid JSON contributes zero dependency
entries and does not abort the scan: reading the manifests of a tree where
one of the three conventional locations fails to parse returns exactly what
reading the same tree without that file returns (the function is total, so
no exception escapes). -/
theorem malformed_manifest_ignored (fs : FS) (p : String)
    (hp : p ∈ ["package.json", "client/package.json", "server/package.json"])
    (he : fs.parsePkg p = Except.error ()) :
    readPackageJson fs = readPackageJson (withoutFile fs p) := by
  unfold readPackageJson
  refine foldl_ext_mem _ _ _ ?_ []
  intro b file hfile
  by_cases hfp : file = p
  · subst hfp
    rw [he]
    simp [withoutFile]
  · simp [withoutFile, hfp]

/-- Witness for C9 on a concrete tree whose `client/package.json` is
malformed. -/
theorem malformed_manifest_ignored_check :
    readPackageJson malformedClientFS =
      readPackageJson (withoutFile malformedClientFS "client/package.json") :=
  malformed_manifest_ignored malformedClientFS "client/package.json" (by decide) (by rfl)

/-- C10: `requirements.dev.assist.txt` - the tool's own output file - is a
detection marker for the `python` tag: whenever it exists at the root,
detection adds `python` to the TagSet (even with no other signal), the
composed configuration therefore contains the Python tool group (Black),
and every non-detect-only run writes that very file, so a second run always
composes the Python groups. -/
theorem selfMarker_detects_python (fs : FS) (isWindows isInteractive : Bool)
    (securityLevel : Nat)
    (h : fs.fileExists "requirements.dev.assist.txt" = true) :
    "python" ∈ detectTechnologies fs ∧
    "black" ∈ hookIds (generateConfiguration isWindows (detectTechnologies fs) securityLevel) ∧
    (runWrites { isInteractive := isInteractive, detectOnly := false } isWindows securityLevel fs).map
        Prod.fst = [".pre-commit-config.yaml", "requirements.dev.assist.txt"] := by
  have hfound : checkFound fs
      { files := ["requirements.txt", "requirements.dev.assist.txt"],
        tech := "python", name := "Python Application" } = true := by
    simp [checkFound, h]
  have hcol : "python" ∈ collectTags fs :=
    tech_mem_foldl_checks fs universalChecks []
      { files := ["requirements.txt", "requirements.dev.assist.txt"],
        tech := "python", name := "Python Application" } (by decide) hfound
  have hne : ¬ (collectTags fs).length = 0 := by
    intro h0
    rw [List.length_eq_zero] at h0
    rw [h0] at hcol
    exact List.not_mem_nil _ hcol
  have hdet : detectTechnologies fs = collectTags fs := by
    simp [detectTechnologies, advancedContentAnalysis, hne]
  have hpy : "python" ∈ detectTechnologies fs := by rw [hdet]; exact hcol
  have hhas : hasAnyTech ["python", "python-source", "python-modern"] (detectTechnologies fs) = true := by
    simp only [hasAnyTech, List.any_eq_true]
    exact ⟨"python", by simp, by simpa using hpy⟩
  refine ⟨hpy, black_mem_of_python isWindows _ securityLevel hhas, ?_⟩
  cases isInteractive <;> simp [runWrites, generateConfigurationWrites]

/-- Witness for C10 on the concrete directory state left by a prior run. -/
theorem selfMarker_detects_python_check :
    "python" ∈ detectTechnologies selfMarkerFS ∧
    "black" ∈ hookIds (generateConfiguration false (detectTechnologies selfMarkerFS) 3) ∧
    (runWrites { isInteractive := false, detectOnly := false } false 3 selfMarkerFS).map
        Prod.fst = [".pre-commit-config.yaml", "requirements.dev.assist.txt"] :=
  selfMarker_detects_python selfMarkerFS false false 3 (by decide)
